import Mathlib

/-!
Shallow embedding of `crates/rpc/src/pathfinder/methods/get_transaction_status.rs`.

The resolver consults three sources in order: the in-memory pending block
snapshot (`is_pending_tx`), the local database (a closure run under
`tokio::task::spawn_blocking`), and the remote sequencer gateway.  Fallible
collaborators are modelled with `Except String` (an `anyhow::Error` is
modelled as its rendered message), and the function is instrumented with the
list of external collaborator calls it performs, so that the claims about
"no ledger lookup" and "no gateway call" can be stated directly.
-/

namespace Pathfinder

/-- A transaction hash (`pathfinder_common::TransactionHash`, an opaque
field-element newtype), modelled as a natural number. -/
abbrev TransactionHash := Nat

/-- A block hash (`pathfinder_common::BlockHash`), modelled as a natural
number. -/
abbrev BlockHash := Nat

/-- A transaction of the pending block; the resolver only inspects its hash
(the call `tx.hash()` in the source). -/
structure Transaction where
  hash : TransactionHash
deriving DecidableEq, Repr

/-- The pending block snapshot: the resolver only reads its transaction
list. -/
structure PendingBlock where
  transactions : List Transaction
deriving DecidableEq, Repr

/-- `starknet_gateway_types::pending::PendingData`: its `block()` accessor
yields the latest pending-block snapshot when one is available, and nothing
when it is not. -/
structure PendingData where
  block : Option PendingBlock
deriving DecidableEq, Repr

/-- `anyhow::Context::context`: wraps an error with a context message. -/
def Anyhow.context (msg : String) (e : String) : String :=
  msg ++ ": " ++ e

/-- The database read transaction handle: `transaction_block_hash` finds the
block containing a transaction (if any), `block_is_l1_accepted` reports a
found block as settlement-layer accepted or not.  Either query may fail with
an I/O error. -/
structure DbTransaction where
  transaction_block_hash : TransactionHash → Except String (Option BlockHash)
  block_is_l1_accepted : BlockHash → Except String Bool

/-- A database connection: starting a read transaction may fail. -/
structure Connection where
  transaction : Except String DbTransaction

/-- The storage handle held in the RPC context: opening a connection may
fail. -/
structure Storage where
  connection : Except String Connection

/-- `starknet_gateway_types::reply::Status`: the status reported by the
remote gateway for a transaction. -/
inductive Status
  | NotReceived
  | Received
  | Pending
  | Rejected
  | AcceptedOnL1
  | AcceptedOnL2
  | Reverted
  | Aborted
deriving DecidableEq, Repr

/-- The gateway reply for a transaction; the resolver reads only its
`status` field. -/
structure GatewayTransaction where
  status : Status
deriving DecidableEq, Repr

/-- The sequencer gateway client (`starknet_gateway_client::GatewayApi`):
fetching a transaction by hash is a network call that may fail with a
transport or lookup error. -/
structure Sequencer where
  transaction : TransactionHash → Except String GatewayTransaction

/-- `RpcContext`, restricted to the fields this method reads: the optional
pending-data view, the storage handle and the sequencer gateway client. -/
structure RpcContext where
  pending_data : Option PendingData
  storage : Storage
  sequencer : Sequencer

/-- The async runtime as seen by this method: whether awaiting the join of
the spawned blocking database task succeeds, or fails with a
`tokio::task::JoinError` (the task panicked or was cancelled). -/
structure Runtime where
  dbJoinError : Option String

/-- The request input: a single `transaction_hash` field. -/
structure GetGatewayTransactionInput where
  transaction_hash : TransactionHash
deriving DecidableEq, Repr

/-- `crate::error::generate_rpc_error_subset!(GetGatewayTransactionError:)`
declares an error enum whose only variant is the implicit `Internal` case
wrapping an `anyhow::Error`. -/
inductive GetGatewayTransactionError
  | Internal (err : String)
deriving DecidableEq, Repr

/-- The closed status enumeration returned by the method, as declared in the
source with its eight variants. -/
inductive TransactionStatus
  | NotReceived
  | Received
  | Pending
  | Rejected
  | AcceptedOnL1
  | AcceptedOnL2
  | Reverted
  | Aborted
deriving DecidableEq, Repr

/-- The serde rename attributes on `TransactionStatus`: the fixed string
token each variant serializes to. -/
def TransactionStatus.serialize : TransactionStatus → String
  | .NotReceived => "NOT_RECEIVED"
  | .Received => "RECEIVED"
  | .Pending => "PENDING"
  | .Rejected => "REJECTED"
  | .AcceptedOnL1 => "ACCEPTED_ON_L1"
  | .AcceptedOnL2 => "ACCEPTED_ON_L2"
  | .Reverted => "REVERTED"
  | .Aborted => "ABORTED"

/-- `impl From<starknet_gateway_types::reply::Status> for TransactionStatus`
(`from` is a Lean keyword, hence the name `from_status`). -/
def TransactionStatus.from_status (value : Status) : TransactionStatus :=
  match value with
  | Status.NotReceived => TransactionStatus.NotReceived
  | Status.Received => TransactionStatus.Received
  | Status.Pending => TransactionStatus.Pending
  | Status.Rejected => TransactionStatus.Rejected
  | Status.AcceptedOnL1 => TransactionStatus.AcceptedOnL1
  | Status.AcceptedOnL2 => TransactionStatus.AcceptedOnL2
  | Status.Reverted => TransactionStatus.Reverted
  | Status.Aborted => TransactionStatus.Aborted

/-- `is_pending_tx`: fetch the pending block snapshot; if available, test
whether any of its transactions has the given hash; if unavailable,
`unwrap_or_default()` yields `false`. -/
def is_pending_tx (pending : PendingData) (tx_hash : TransactionHash) : Bool :=
  (pending.block.map
    (fun block => block.transactions.any (fun tx => tx.hash == tx_hash))).getD false

/-- Stage 1 of `get_transaction_status`:
`if let Some(pending) = &context.pending_data` followed by the
`is_pending_tx` test — `true` exactly when a pending view is configured and
the transaction is in its snapshot. -/
def pending_check (context : RpcContext) (input : GetGatewayTransactionInput) : Bool :=
  match context.pending_data with
  | some pending => is_pending_tx pending input.transaction_hash
  | none => false

/-- The closure passed to `tokio::task::spawn_blocking`: open a database
connection, start a read transaction, look up the block containing the
transaction, and — if one is found — query whether that block is
L1-accepted.  Each step attaches its `anyhow` context message on failure. -/
def db_task (storage : Storage) (transaction_hash : TransactionHash) :
    Except String (Option Bool) := do
  let db ← storage.connection.mapError (Anyhow.context "Opening database connection")
  let db_tx ← db.transaction.mapError (Anyhow.context "Creating database transaction")
  let block_hash ← (db_tx.transaction_block_hash transaction_hash).mapError
    (Anyhow.context "Fetching transaction block hash from database")
  match block_hash with
  | none => pure none
  | some block_hash => do
    let tx_status ← (db_tx.block_is_l1_accepted block_hash).mapError
      (Anyhow.context "Quering block\x27s status")
    pure (some tx_status)

/-- Stage 2 value: `spawn_blocking(...).await.context("Joining database
task")??` — a failed join surfaces as an error with that context; otherwise
the result is whatever the database closure produced. -/
def db_status (rt : Runtime) (context : RpcContext)
    (input : GetGatewayTransactionInput) : Except String (Option Bool) :=
  match rt.dbJoinError with
  | some e => Except.error (Anyhow.context "Joining database task" e)
  | none => db_task context.storage input.transaction_hash

/-- The external collaborator calls a resolution performs, for the
instrumented embedding: the blocking ledger task and the gateway fetch. -/
inductive Call
  | LedgerCall
  | GatewayCall
deriving DecidableEq, Repr

/-- `get_transaction_status`, instrumented with the ordered list of external
collaborator calls it performs.  The control flow mirrors the source: a
pending hit returns `Pending` at once; otherwise the blocking database task
runs, an error there (join failure included) propagates as `Internal`, a
found block returns `AcceptedOnL1`/`AcceptedOnL2` by its L1-acceptance, and
only an absent block reaches the gateway, whose status is mapped by
`TransactionStatus.from_status` and whose failure propagates as
`Internal` with the gateway context message. -/
def get_transaction_status (rt : Runtime) (context : RpcContext)
    (input : GetGatewayTransactionInput) :
    Except GetGatewayTransactionError TransactionStatus × List Call :=
  -- Check in pending block.
  if pending_check context input then
    (Except.ok TransactionStatus.Pending, [])
  else
    -- Check database.
    match db_status rt context input with
    | Except.error e =>
        (Except.error (GetGatewayTransactionError.Internal e), [Call.LedgerCall])
    | Except.ok (some true) =>
        (Except.ok TransactionStatus.AcceptedOnL1, [Call.LedgerCall])
    | Except.ok (some false) =>
        (Except.ok TransactionStatus.AcceptedOnL2, [Call.LedgerCall])
    | Except.ok none =>
        -- Check gateway for rejected transactions.
        match context.sequencer.transaction input.transaction_hash with
        | Except.ok tx =>
            (Except.ok (TransactionStatus.from_status tx.status),
              [Call.LedgerCall, Call.GatewayCall])
        | Except.error e =>
            (Except.error (GetGatewayTransactionError.Internal
                (Anyhow.context "Fetching transaction from gateway" e)),
              [Call.LedgerCall, Call.GatewayCall])

/-! Concrete fixtures used by the witnesses. -/

/-- A runtime whose blocking-task join succeeds. -/
def rt_ok : Runtime := ⟨none⟩

/-- A runtime whose blocking-task join fails. -/
def rt_join_fail : Runtime := ⟨some "task panicked"⟩

/-- A pending view whose snapshot holds the single transaction hash 7. -/
def pending7 : PendingData := ⟨some ⟨[⟨7⟩]⟩⟩

/-- A database with no block containing any transaction. -/
def storage_empty : Storage :=
  ⟨Except.ok ⟨Except.ok ⟨fun _ => Except.ok none, fun _ => Except.ok true⟩⟩⟩

/-- A database in which every transaction is in block 5, an L1-accepted
block. -/
def storage_l1 : Storage :=
  ⟨Except.ok ⟨Except.ok ⟨fun _ => Except.ok (some 5), fun _ => Except.ok true⟩⟩⟩

/-- A database in which every transaction is in block 5, a block not yet
L1-accepted. -/
def storage_l2 : Storage :=
  ⟨Except.ok ⟨Except.ok ⟨fun _ => Except.ok (some 5), fun _ => Except.ok false⟩⟩⟩

/-- A database whose connection cannot be opened. -/
def storage_conn_fail : Storage := ⟨Except.error "no db"⟩

/-- A gateway that reports every transaction as rejected. -/
def seq_rejected : Sequencer := ⟨fun _ => Except.ok ⟨Status.Rejected⟩⟩

/-- A gateway whose fetch fails with a transport error. -/
def seq_fail : Sequencer := ⟨fun _ => Except.error "timeout"⟩

/-- The request for transaction hash 7. -/
def input7 : GetGatewayTransactionInput := ⟨7⟩

/-! Claims. -/

/-- Claim C1: for every identifier present in the configured pending
snapshot, `get_transaction_status` returns `Pending` and performs no ledger
lookup and no gateway call (the call log is empty). -/
theorem resolve_pending_hit (rt : Runtime) (context : RpcContext)
    (input : GetGatewayTransactionInput) (pending : PendingData)
    (hconf : context.pending_data = some pending)
    (hmem : is_pending_tx pending input.transaction_hash = true) :
    get_transaction_status rt context input = (Except.ok TransactionStatus.Pending, []) := by
  have hp : pending_check context input = true := by
    unfold pending_check
    rw [hconf]
    exact hmem
  unfold get_transaction_status
  rw [hp]
  simp

/-- Witness for C1 at concrete inputs. -/
theorem resolve_pending_hit_witness :
    get_transaction_status rt_ok ⟨some pending7, storage_empty, seq_rejected⟩ input7
      = (Except.ok TransactionStatus.Pending, []) :=
  resolve_pending_hit rt_ok ⟨some pending7, storage_empty, seq_rejected⟩ input7
    pending7 rfl (by decide)

/-- Claim C2: when the transaction is not matched as pending and the
database closure fails with an I/O error (connection, transaction start or
query), `get_transaction_status` returns that error wrapped as `Internal`
and never calls the gateway. -/
theorem resolve_ledger_error (rt : Runtime) (context : RpcContext)
    (input : GetGatewayTransactionInput) (e : String)
    (hpend : pending_check context input = false)
    (hjoin : rt.dbJoinError = none)
    (hdb : db_task context.storage input.transaction_hash = Except.error e) :
    get_transaction_status rt context input
      = (Except.error (GetGatewayTransactionError.Internal e), [Call.LedgerCall])
    ∧ Call.GatewayCall ∉ (get_transaction_status rt context input).2 := by
  have hds : db_status rt context input = Except.error e := by
    unfold db_status
    rw [hjoin, hdb]
  unfold get_transaction_status
  rw [hpend, hds]
  simp

/-- Witness for C2 at concrete inputs. -/
theorem resolve_ledger_error_witness :
    get_transaction_status rt_ok ⟨none, storage_conn_fail, seq_rejected⟩ input7
      = (Except.error (GetGatewayTransactionError.Internal
          "Opening database connection: no db"), [Call.LedgerCall])
    ∧ Call.GatewayCall ∉
        (get_transaction_status rt_ok ⟨none, storage_conn_fail, seq_rejected⟩ input7).2 :=
  resolve_ledger_error rt_ok ⟨none, storage_conn_fail, seq_rejected⟩ input7
    "Opening database connection: no db" rfl rfl rfl

/-- Claim C3: when the transaction is not matched as pending and the
database finds its containing block, the result is `AcceptedOnL1` if that
block is L1-accepted and `AcceptedOnL2` otherwise, and the gateway is never
called. -/
theorem resolve_ledger_hit (rt : Runtime) (context : RpcContext)
    (input : GetGatewayTransactionInput) (b : Bool)
    (hpend : pending_check context input = false)
    (hjoin : rt.dbJoinError = none)
    (hdb : db_task context.storage input.transaction_hash = Except.ok (some b)) :
    (get_transaction_status rt context input).1
      = Except.ok (if b then TransactionStatus.AcceptedOnL1 else TransactionStatus.AcceptedOnL2)
    ∧ Call.GatewayCall ∉ (get_transaction_status rt context input).2 := by
  have hds : db_status rt context input = Except.ok (some b) := by
    unfold db_status
    rw [hjoin, hdb]
  unfold get_transaction_status
  rw [hpend, hds]
  cases b <;> simp

/-- Witness for C3 at concrete inputs (an L1-accepted block). -/
theorem resolve_ledger_hit_witness :
    (get_transaction_status rt_ok ⟨none, storage_l1, seq_rejected⟩ input7).1
      = Except.ok (if true then TransactionStatus.AcceptedOnL1
          else TransactionStatus.AcceptedOnL2)
    ∧ Call.GatewayCall ∉
        (get_transaction_status rt_ok ⟨none, storage_l1, seq_rejected⟩ input7).2 :=
  resolve_ledger_hit rt_ok ⟨none, storage_l1, seq_rejected⟩ input7 true rfl rfl rfl

/-- Claim C4: when the transaction is neither pending nor in the database,
the gateway is called and its reported status is returned mapped by
`TransactionStatus.from_status`, which is the structural identity on the
eight variants. -/
theorem resolve_gateway_passthrough (rt : Runtime) (context : RpcContext)
    (input : GetGatewayTransactionInput) (tx : GatewayTransaction)
    (hpend : pending_check context input = false)
    (hjoin : rt.dbJoinError = none)
    (hdb : db_task context.storage input.transaction_hash = Except.ok none)
    (hgw : context.sequencer.transaction input.transaction_hash = Except.ok tx) :
    (get_transaction_status rt context input).1
      = Except.ok (TransactionStatus.from_status tx.status)
    ∧ Call.GatewayCall ∈ (get_transaction_status rt context input).2
    ∧ TransactionStatus.from_status Status.NotReceived = TransactionStatus.NotReceived
    ∧ TransactionStatus.from_status Status.Received = TransactionStatus.Received
    ∧ TransactionStatus.from_status Status.Pending = TransactionStatus.Pending
    ∧ TransactionStatus.from_status Status.Rejected = TransactionStatus.Rejected
    ∧ TransactionStatus.from_status Status.AcceptedOnL1 = TransactionStatus.AcceptedOnL1
    ∧ TransactionStatus.from_status Status.AcceptedOnL2 = TransactionStatus.AcceptedOnL2
    ∧ TransactionStatus.from_status Status.Reverted = TransactionStatus.Reverted
    ∧ TransactionStatus.from_status Status.Aborted = TransactionStatus.Aborted := by
  have hds : db_status rt context input = Except.ok none := by
    unfold db_status
    rw [hjoin, hdb]
  unfold get_transaction_status
  rw [hpend, hds, hgw]
  simp [TransactionStatus.from_status]

/-- Witness for C4 at concrete inputs (gateway reports `Rejected`). -/
theorem resolve_gateway_passthrough_witness :
    (get_transaction_status rt_ok ⟨none, storage_empty, seq_rejected⟩ input7).1
      = Except.ok (TransactionStatus.from_status
          (GatewayTransaction.mk Status.Rejected).status)
    ∧ Call.GatewayCall ∈
        (get_transaction_status rt_ok ⟨none, storage_empty, seq_rejected⟩ input7).2
    ∧ TransactionStatus.from_status Status.NotReceived = TransactionStatus.NotReceived
    ∧ TransactionStatus.from_status Status.Received = TransactionStatus.Received
    ∧ TransactionStatus.from_status Status.Pending = TransactionStatus.Pending
    ∧ TransactionStatus.from_status Status.Rejected = TransactionStatus.Rejected
    ∧ TransactionStatus.from_status Status.AcceptedOnL1 = TransactionStatus.AcceptedOnL1
    ∧ TransactionStatus.from_status Status.AcceptedOnL2 = TransactionStatus.AcceptedOnL2
    ∧ TransactionStatus.from_status Status.Reverted = TransactionStatus.Reverted
    ∧ TransactionStatus.from_status Status.Aborted = TransactionStatus.Aborted :=
  resolve_gateway_passthrough rt_ok ⟨none, storage_empty, seq_rejected⟩ input7
    (GatewayTransaction.mk Status.Rejected) rfl rfl rfl rfl

/-- Claim C5: when no pending view is configured, or the pending snapshot is
unavailable, the resolution is exactly the one with no pending view at all
(no error from this stage) and control falls through to the ledger stage
(the ledger task is always invoked). -/
theorem resolve_pending_unavailable (rt : Runtime) (context : RpcContext)
    (input : GetGatewayTransactionInput)
    (h : context.pending_data = none
      ∨ ∃ pending, context.pending_data = some pending ∧ pending.block = none) :
    get_transaction_status rt context input
      = get_transaction_status rt ⟨none, context.storage, context.sequencer⟩ input
    ∧ Call.LedgerCall ∈ (get_transaction_status rt context input).2 := by
  have hp : pending_check context input = false := by
    unfold pending_check
    rcases h with h | ⟨pending, hps, hblk⟩
    · rw [h]
    · rw [hps]
      show is_pending_tx pending input.transaction_hash = false
      unfold is_pending_tx
      rw [hblk]
      rfl
  have hp0 : pending_check ⟨none, context.storage, context.sequencer⟩ input = false := rfl
  have hds : db_status rt ⟨none, context.storage, context.sequencer⟩ input
      = db_status rt context input := rfl
  constructor
  · unfold get_transaction_status
    rw [hp, hp0, hds]
  · unfold get_transaction_status
    rw [hp]
    cases hd : db_status rt context input with
    | error e => simp
    | ok ob =>
      cases ob with
      | none =>
        cases hg : context.sequencer.transaction input.transaction_hash with
        | ok tx => simp
        | error e => simp
      | some b => cases b <;> simp

/-- Witness for C5 at concrete inputs (a configured pending view whose
snapshot is unavailable). -/
theorem resolve_pending_unavailable_witness :
    get_transaction_status rt_ok ⟨some ⟨none⟩, storage_l1, seq_rejected⟩ input7
      = get_transaction_status rt_ok ⟨none, storage_l1, seq_rejected⟩ input7
    ∧ Call.LedgerCall ∈
        (get_transaction_status rt_ok ⟨some ⟨none⟩, storage_l1, seq_rejected⟩ input7).2 :=
  resolve_pending_unavailable rt_ok ⟨some ⟨none⟩, storage_l1, seq_rejected⟩ input7
    (Or.inr ⟨⟨none⟩, rfl, rfl⟩)

/-- Claim C6: when the gateway stage is reached (not pending, not in the
database) and the gateway fetch fails, `get_transaction_status` returns the
failure as `Internal` with the gateway context message: no further fallback,
no fabricated status. -/
theorem resolve_gateway_error (rt : Runtime) (context : RpcContext)
    (input : GetGatewayTransactionInput) (e : String)
    (hpend : pending_check context input = false)
    (hjoin : rt.dbJoinError = none)
    (hdb : db_task context.storage input.transaction_hash = Except.ok none)
    (hgw : context.sequencer.transaction input.transaction_hash = Except.error e) :
    (get_transaction_status rt context input).1
      = Except.error (GetGatewayTransactionError.Internal
          (Anyhow.context "Fetching transaction from gateway" e)) := by
  have hds : db_status rt context input = Except.ok none := by
    unfold db_status
    rw [hjoin, hdb]
  unfold get_transaction_status
  rw [hpend, hds, hgw]
  simp

/-- Witness for C6 at concrete inputs. -/
theorem resolve_gateway_error_witness :
    (get_transaction_status rt_ok ⟨none, storage_empty, seq_fail⟩ input7).1
      = Except.error (GetGatewayTransactionError.Internal
          (Anyhow.context "Fetching transaction from gateway" "timeout")) :=
  resolve_gateway_error rt_ok ⟨none, storage_empty, seq_fail⟩ input7 "timeout"
    rfl rfl rfl rfl

/-- Claim C7: on a call whose joined database stage finds the containing
block, the result is never `Pending`: a positive pending match makes the
call log empty (the ledger lookup is skipped), and otherwise the result is
exactly `AcceptedOnL1` or `AcceptedOnL2`. -/
theorem resolve_never_pending_on_ledger_hit (rt : Runtime) (context : RpcContext)
    (input : GetGatewayTransactionInput) (b : Bool)
    (hdb : db_status rt context input = Except.ok (some b)) :
    (pending_check context input = true →
      (get_transaction_status rt context input).2 = [])
    ∧ (pending_check context input = false →
      (get_transaction_status rt context input).1 ≠ Except.ok TransactionStatus.Pending
      ∧ ((get_transaction_status rt context input).1 = Except.ok TransactionStatus.AcceptedOnL1
        ∨ (get_transaction_status rt context input).1
            = Except.ok TransactionStatus.AcceptedOnL2)) := by
  constructor
  · intro hp
    unfold get_transaction_status
    rw [hp]
    simp
  · intro hp
    unfold get_transaction_status
    rw [hp, hdb]
    cases b <;> simp

/-- Witness for C7 at concrete inputs. -/
theorem resolve_never_pending_on_ledger_hit_witness :
    (pending_check ⟨none, storage_l2, seq_rejected⟩ input7 = true →
      (get_transaction_status rt_ok ⟨none, storage_l2, seq_rejected⟩ input7).2 = [])
    ∧ (pending_check ⟨none, storage_l2, seq_rejected⟩ input7 = false →
      (get_transaction_status rt_ok ⟨none, storage_l2, seq_rejected⟩ input7).1
          ≠ Except.ok TransactionStatus.Pending
      ∧ ((get_transaction_status rt_ok ⟨none, storage_l2, seq_rejected⟩ input7).1
            = Except.ok TransactionStatus.AcceptedOnL1
        ∨ (get_transaction_status rt_ok ⟨none, storage_l2, seq_rejected⟩ input7).1
            = Except.ok TransactionStatus.AcceptedOnL2)) :=
  resolve_never_pending_on_ledger_hit rt_ok ⟨none, storage_l2, seq_rejected⟩ input7
    false rfl

/-- Claim C8: `get_transaction_status` is deterministic in its inputs and
backing sources — two resolutions of the same identifier against the same
runtime, pending view, storage and gateway state are equal. -/
theorem resolve_deterministic (rt : Runtime) (context : RpcContext)
    (input : GetGatewayTransactionInput)
    (r1 r2 : Except GetGatewayTransactionError TransactionStatus × List Call)
    (h1 : r1 = get_transaction_status rt context input)
    (h2 : r2 = get_transaction_status rt context input) :
    r1 = r2 := by
  rw [h1, h2]

/-- Witness for C8 at concrete inputs. -/
theorem resolve_deterministic_witness :
    get_transaction_status rt_ok ⟨some pending7, storage_l1, seq_rejected⟩ input7
      = get_transaction_status rt_ok ⟨some pending7, storage_l1, seq_rejected⟩ input7 :=
  resolve_deterministic rt_ok ⟨some pending7, storage_l1, seq_rejected⟩ input7
    (get_transaction_status rt_ok ⟨some pending7, storage_l1, seq_rejected⟩ input7)
    (get_transaction_status rt_ok ⟨some pending7, storage_l1, seq_rejected⟩ input7)
    rfl rfl

/-- Claim C9: each `TransactionStatus` variant serializes to its fixed
string token, and every serialization is one of the eight tokens. -/
theorem transaction_status_serialize_tokens :
    TransactionStatus.serialize TransactionStatus.NotReceived = "NOT_RECEIVED"
    ∧ TransactionStatus.serialize TransactionStatus.Received = "RECEIVED"
    ∧ TransactionStatus.serialize TransactionStatus.Pending = "PENDING"
    ∧ TransactionStatus.serialize TransactionStatus.Rejected = "REJECTED"
    ∧ TransactionStatus.serialize TransactionStatus.AcceptedOnL1 = "ACCEPTED_ON_L1"
    ∧ TransactionStatus.serialize TransactionStatus.AcceptedOnL2 = "ACCEPTED_ON_L2"
    ∧ TransactionStatus.serialize TransactionStatus.Reverted = "REVERTED"
    ∧ TransactionStatus.serialize TransactionStatus.Aborted = "ABORTED"
    ∧ ∀ s : TransactionStatus, TransactionStatus.serialize s ∈
        ["NOT_RECEIVED", "RECEIVED", "PENDING", "REJECTED", "ACCEPTED_ON_L1",
          "ACCEPTED_ON_L2", "REVERTED", "ABORTED"] := by
  refine ⟨rfl, rfl, rfl, rfl, rfl, rfl, rfl, rfl, ?_⟩
  intro s
  cases s <;> simp [TransactionStatus.serialize]

/-- Claim C10: when the join of the spawned blocking database task fails
(panic or cancellation), `get_transaction_status` returns an `Internal`
error carrying the join context and never reaches the gateway. -/
theorem resolve_join_error (rt : Runtime) (context : RpcContext)
    (input : GetGatewayTransactionInput) (e : String)
    (hpend : pending_check context input = false)
    (hjoin : rt.dbJoinError = some e) :
    (get_transaction_status rt context input).1
      = Except.error (GetGatewayTransactionError.Internal
          (Anyhow.context "Joining database task" e))
    ∧ Call.GatewayCall ∉ (get_transaction_status rt context input).2 := by
  have hds : db_status rt context input
      = Except.error (Anyhow.context "Joining database task" e) := by
    unfold db_status
    rw [hjoin]
  unfold get_transaction_status
  rw [hpend, hds]
  simp

/-- Witness for C10 at concrete inputs. -/
theorem resolve_join_error_witness :
    (get_transaction_status rt_join_fail ⟨none, storage_l1, seq_rejected⟩ input7).1
      = Except.error (GetGatewayTransactionError.Internal
          (Anyhow.context "Joining database task" "task panicked"))
    ∧ Call.GatewayCall ∉
        (get_transaction_status rt_join_fail ⟨none, storage_l1, seq_rejected⟩ input7).2 :=
  resolve_join_error rt_join_fail ⟨none, storage_l1, seq_rejected⟩ input7
    "task panicked" rfl rfl

end Pathfinder
